import Mathlib

/-!
Verification of `Distributed-Job-Scheduling/mermaid/generate_png.py`.

The script reads a Mermaid text file, compresses its UTF-8 bytes with
`zlib.compress(·, 9)`, base64url-encodes the result stripping trailing `=`
padding, issues an HTTP GET to `https://mermaid.ink/img/pako:<payload>`,
writes the response body to the output file, and applies a 500-byte size
heuristic to classify the response.  A driver loop runs this over four
hard-coded filenames, counting successes.

Bytes are modelled as `Nat` values `< 256`.  The `zlib` library is not part
of the repository; it is modelled abstractly by a `ZlibModel` carrying the
documented deflate contract (decompress inverts compress, output is bytes).
File I/O, the network and text decoding are modelled by an `Env` of
effect functions returning `Except`, with the filesystem as an explicit map,
so that Python's caught/uncaught exception structure is reflected exactly:
the input-file read happens **before** the `try:` block, everything from the
GET onwards happens inside it.
-/

/-- The URL-safe base64 alphabet used by `base64.urlsafe_b64encode`:
`A-Z`, `a-z`, `0-9`, `-`, `_`. -/
def b64alphabet : List Char :=
  ['A','B','C','D','E','F','G','H','I','J','K','L','M',
   'N','O','P','Q','R','S','T','U','V','W','X','Y','Z',
   'a','b','c','d','e','f','g','h','i','j','k','l','m',
   'n','o','p','q','r','s','t','u','v','w','x','y','z',
   '0','1','2','3','4','5','6','7','8','9','-','_']

/-- Character for a 6-bit value. -/
def b64char (n : Nat) : Char := b64alphabet.getD n '?'

/-- Inverse lookup: 6-bit value of an alphabet character. -/
def b64value (c : Char) : Nat := b64alphabet.indexOf c

/-- Character class `[A-Za-z0-9\-_]` from the spec. -/
def isUrlSafeChar (c : Char) : Bool :=
  ('A' ≤ c && c ≤ 'Z') || ('a' ≤ c && c ≤ 'z') || ('0' ≤ c && c ≤ '9')
    || c = '-' || c = '_'

/-- Test for the padding character `=`. -/
def isEqSign (c : Char) : Bool := c == '='

/-- Standard base64 encoding of a byte list (big-endian sextets), with `=`
padding, over the URL-safe alphabet — the behaviour of
`base64.urlsafe_b64encode`. -/
def b64encode : List Nat → List Char
  | [] => []
  | [a] => [b64char (a / 4), b64char (a % 4 * 16), '=', '=']
  | [a, b] => [b64char (a / 4), b64char (a % 4 * 16 + b / 16),
               b64char (b % 16 * 4), '=']
  | a :: b :: c :: rest =>
      b64char (a / 4) :: b64char (a % 4 * 16 + b / 16) ::
      b64char (b % 16 * 4 + c / 64) :: b64char (c % 64) :: b64encode rest

/-- Python's `str.rstrip('=')`: remove all trailing `=` characters. -/
def rstripEq (s : List Char) : List Char :=
  (s.reverse.dropWhile isEqSign).reverse

/-- Restore the stripped padding: append `=` until the length is a multiple
of four. -/
def b64pad (s : List Char) : List Char :=
  s ++ List.replicate ((4 - s.length % 4) % 4) '='

/-- Decode a padding-free base64 character list back to bytes. -/
def b64decodeCore : List Char → List Nat
  | a :: b :: c :: d :: rest =>
      (b64value a * 4 + b64value b / 16) ::
      (b64value b % 16 * 16 + b64value c / 4) ::
      (b64value c % 4 * 64 + b64value d) :: b64decodeCore rest
  | [a, b, c] =>
      [b64value a * 4 + b64value b / 16,
       b64value b % 16 * 16 + b64value c / 4]
  | [a, b] => [b64value a * 4 + b64value b / 16]
  | _ => []

/-- Standard base64url decoding: ignore `=` padding, decode the rest. -/
def b64decode (s : List Char) : List Nat :=
  b64decodeCore (s.filter (fun c => !isEqSign c))

/-- UTF-8 encoding of a single code point (the standard 1–4 byte scheme). -/
def utf8EncodeChar (c : Nat) : List Nat :=
  if c < 128 then [c]
  else if c < 2048 then [192 + c / 64, 128 + c % 64]
  else if c < 65536 then [224 + c / 4096, 128 + c / 64 % 64, 128 + c % 64]
  else [240 + c / 262144, 128 + c / 4096 % 64, 128 + c / 64 % 64, 128 + c % 64]

/-- UTF-8 bytes of a string — `content.encode('utf-8')`. -/
def utf8Bytes (s : String) : List Nat :=
  (s.data.map (fun c => utf8EncodeChar c.toNat)).flatten

/-- Abstract model of the `zlib` library at compression level 9 (a library
primitive, not code of this repository), carrying its documented contract:
output of `compress` is a byte stream and `decompress` inverts it. -/
structure ZlibModel where
  compress : List Nat → List Nat
  decompress : List Nat → List Nat
  compress_bytes : ∀ b, (∀ x ∈ b, x < 256) → ∀ x ∈ compress b, x < 256
  decompress_compress : ∀ b, (∀ x ∈ b, x < 256) → decompress (compress b) = b

/-- Trivial instance of the zlib contract (identity compression), used to
instantiate theorems at concrete inputs. -/
def idZlib : ZlibModel where
  compress := fun b => b
  decompress := fun b => b
  compress_bytes := fun _ h => h
  decompress_compress := fun _ _ => rfl

/-- The encoded payload: `base64.urlsafe_b64encode(zlib.compress(content.encode('utf-8'), 9)).decode('ascii').rstrip('=')`. -/
def encodePayload (Z : ZlibModel) (content : String) : List Char :=
  rstripEq (b64encode (Z.compress (utf8Bytes content)))

/-- The request URL: `f"https://mermaid.ink/img/pako:\x7bencoded\x7d"`. -/
def mkUrl (Z : ZlibModel) (content : String) : String :=
  "https://mermaid.ink/img/pako:" ++ String.mk (encodePayload Z content)

/-- Filesystem state: maps a path to the byte content of the file at that
path, if one exists. -/
def Fs : Type := String → Option (List Nat)

/-- Binary write (`open(path,'wb')` + `write`): create or truncate. -/
def updateFs (fs : Fs) (path : String) (data : List Nat) : Fs :=
  fun q => if q = path then some data else fs q

/-- Environment of effectful primitives the script calls.  Each `Except`
result models a Python call that either returns or raises.
`readFile` is `open(mmd_file,'r').read()`, `httpGet` is
`urllib.request.urlopen(url).read()`, `writeOk path` tells whether the
binary write to `path` succeeds, and `decodeText` is reading bytes back in
text mode (which raises on undecodable bytes). -/
structure Env where
  readFile : String → Except String String
  httpGet : String → Except String (List Nat)
  writeOk : String → Bool
  decodeText : List Nat → Except String String

/-- Body of the `try:` block of `generate_png`: GET the URL, write the
response body to `png_file`, apply the 500-byte heuristic; on the small-body
path, re-open `png_file` in text mode for diagnostics.  The first component
is `.ok b` for a normal `return b` and `.error e` for a raised exception;
the second component is the filesystem state at that point. -/
def tryRender (env : Env) (fs : Fs) (png_file url : String) :
    Except String Bool × Fs :=
  match env.httpGet url with
  | .error e => (.error e, fs)
  | .ok data =>
    if env.writeOk png_file then
      let fs1 := updateFs fs png_file data
      if data.length < 500 then
        match fs1 png_file with
        | none => (.error "FileNotFoundError", fs1)
        | some bs =>
          match env.decodeText bs with
          | .error e => (.error e, fs1)
          | .ok _txt => (.ok false, fs1)
      else (.ok true, fs1)
    else (.error "write failed", fs)

/-- The `generate_png(mmd_file, png_file)` function.  The input-file read
and the compression/encoding happen before the `try:` block, so an
exception there propagates (`.error`); every exception inside the `try:`
block is caught by `except Exception` which prints and returns `False`. -/
def generate_png (Z : ZlibModel) (env : Env) (fs : Fs)
    (mmd_file png_file : String) : Except String (Bool × Fs) :=
  match env.readFile mmd_file with
  | .error e => .error e
  | .ok content =>
    match tryRender env fs png_file (mkUrl Z content) with
    | (.ok b, fs1) => .ok (b, fs1)
    | (.error _e, fs1) => .ok (false, fs1)

/-- Python's `s.replace(pat, rep)` on character lists: replace all
non-overlapping occurrences left to right.  Fuel-driven; a fuel of
`s.length` is always enough for a non-empty pattern. -/
def pyReplaceAux (pat rep : List Char) : Nat → List Char → List Char
  | 0, s => s
  | _fuel + 1, [] => []
  | fuel + 1, c :: rest =>
    if pat.isPrefixOf (c :: rest) then
      rep ++ pyReplaceAux pat rep fuel ((c :: rest).drop pat.length)
    else c :: pyReplaceAux pat rep fuel rest

/-- Python's `s.replace(pat, rep)` on strings. -/
def pyReplace (s pat rep : String) : String :=
  String.mk (pyReplaceAux pat.data rep.data s.data.length s.data)

/-- The hard-coded input file list of the `__main__` driver. -/
def mmd_files : List String :=
  ["leader-election-sequence.mmd",
   "queue-based-architecture.mmd",
   "decision-tree.mmd",
   "idempotency-pattern.mmd"]

/-- The driver loop over a file list: for each entry derive the output name
with `mmd_file.replace('.mmd', '.png')` and call `generate_png`,
incrementing the success counter on `True`.  Returns the list of inputs for
which a render was attempted, and either `.ok (success_count, fs)` when the
loop completes or `.error e` when an uncaught exception crashes the script
(later entries are then never attempted and no summary is printed). -/
def runBatch (Z : ZlibModel) (env : Env) :
    Fs → List String → List String × Except String (Nat × Fs)
  | fs, [] => ([], .ok (0, fs))
  | fs, m :: rest =>
    match generate_png Z env fs m (pyReplace m ".mmd" ".png") with
    | .error e => ([m], .error e)
    | .ok (b, fs1) =>
      match runBatch Z env fs1 rest with
      | (att, .ok (n, fs2)) => (m :: att, .ok ((if b then n + 1 else n), fs2))
      | (att, .error e) => (m :: att, .error e)

/-- The `__main__` block: run the batch over the four hard-coded files. -/
def mainLoop (Z : ZlibModel) (env : Env) (fs : Fs) :
    List String × Except String (Nat × Fs) :=
  runBatch Z env fs mmd_files

/-- The empty filesystem. -/
def fs0 : Fs := fun _ => none

/-- A plausible PNG-sized response body (1024 bytes). -/
def bigData : List Nat := List.replicate 1024 7

/-- Environment in which every primitive succeeds; each input file reads as
its own name and every GET returns a 1024-byte body. -/
def envAllOk : Env where
  readFile := fun m => .ok m
  httpGet := fun _ => .ok bigData
  writeOk := fun _ => true
  decodeText := fun _ => .ok "ok"

/-- Environment in which every network request raises. -/
def envNetDown : Env where
  readFile := fun m => .ok m
  httpGet := fun _ => .error "URLError"
  writeOk := fun _ => true
  decodeText := fun _ => .ok "ok"

/-- Environment in which reading the second hard-coded input file raises
and everything else succeeds. -/
def envReadFail2 : Env where
  readFile := fun m =>
    if m = "queue-based-architecture.mmd" then .error "FileNotFoundError"
    else .ok m
  httpGet := fun _ => .ok bigData
  writeOk := fun _ => true
  decodeText := fun _ => .ok "ok"

/-- Environment in which only the render request of the second hard-coded
input (whose content reads as its filename) fails with a network error. -/
def envNet2 : Env where
  readFile := fun m => .ok m
  httpGet := fun u =>
    if u = mkUrl idZlib "queue-based-architecture.mmd" then .error "URLError"
    else .ok bigData
  writeOk := fun _ => true
  decodeText := fun _ => .ok "ok"

/-- Environment whose responses are exactly 499 bytes. -/
def env499 : Env where
  readFile := fun m => .ok m
  httpGet := fun _ => .ok (List.replicate 499 0)
  writeOk := fun _ => true
  decodeText := fun _ => .ok "err"

/-- Environment whose responses are exactly 500 bytes. -/
def env500 : Env where
  readFile := fun m => .ok m
  httpGet := fun _ => .ok (List.replicate 500 0)
  writeOk := fun _ => true
  decodeText := fun _ => .ok "ok"

/-- Environment whose responses are 12 undecodable bytes: the diagnostic
text re-read raises. -/
def envSmallBad : Env where
  readFile := fun m => .ok m
  httpGet := fun _ => .ok (List.replicate 12 137)
  writeOk := fun _ => true
  decodeText := fun _ => .error "UnicodeDecodeError"

/-! ### Helper lemmas: the base64url layer -/

/-- Value/character lookup are inverse on 6-bit values. -/
theorem b64value_b64char : ∀ n < 64, b64value (b64char n) = n := by decide

/-- Alphabet characters are never the padding character. -/
theorem isEqSign_b64char : ∀ n < 64, isEqSign (b64char n) = false := by decide

/-- Alphabet characters lie in the class `[A-Za-z0-9\-_]`. -/
theorem urlSafe_b64char : ∀ n < 64, isUrlSafeChar (b64char n) = true := by decide

/-- The padding character satisfies `isEqSign`. -/
theorem isEqSign_eqSign : isEqSign '=' = true := rfl

/-- The padding character is outside the class `[A-Za-z0-9\-_]`. -/
theorem urlSafe_eqSign_false : isUrlSafeChar '=' = false := by decide

/-- Dropping a leading run of `=` does not change the `=`-free characters. -/
theorem filter_dropWhile_eqSign (l : List Char) :
    (l.dropWhile isEqSign).filter (fun c => !isEqSign c) =
      l.filter (fun c => !isEqSign c) := by
  induction l with
  | nil => rfl
  | cons x xs ih =>
    rw [List.dropWhile_cons]
    cases h : isEqSign x with
    | true => simp [h, List.filter_cons, ih]
    | false => simp only [Bool.false_eq_true, if_false]

/-- Stripping trailing `=` does not change the `=`-free characters. -/
theorem filter_rstripEq (l : List Char) :
    (rstripEq l).filter (fun c => !isEqSign c) = l.filter (fun c => !isEqSign c) := by
  unfold rstripEq
  rw [List.filter_reverse, filter_dropWhile_eqSign, List.filter_reverse,
    List.reverse_reverse]

/-- Re-padding does not change the `=`-free characters. -/
theorem filter_b64pad (l : List Char) :
    (b64pad l).filter (fun c => !isEqSign c) = l.filter (fun c => !isEqSign c) := by
  unfold b64pad
  rw [List.filter_append]
  simp [List.filter_replicate, isEqSign]

/-- Decoding the `=`-free part of an encoded byte list recovers the bytes. -/
theorem b64decodeCore_filter_encode (b : List Nat) (h : ∀ x ∈ b, x < 256) :
    b64decodeCore ((b64encode b).filter (fun c => !isEqSign c)) = b := by
  induction b using b64encode.induct with
  | case1 => rfl
  | case2 a =>
    have ha : a < 256 := h a (by simp)
    have h1 := isEqSign_b64char (a / 4) (by omega)
    have h2 := isEqSign_b64char (a % 4 * 16) (by omega)
    have v1 := b64value_b64char (a / 4) (by omega)
    have v2 := b64value_b64char (a % 4 * 16) (by omega)
    simp only [b64encode, List.filter_cons, h1, h2, Bool.not_false, if_true]
    simp only [List.filter, isEqSign, b64decodeCore, v1, v2]
    norm_num
    omega
  | case3 a b =>
    have ha : a < 256 := h a (by simp)
    have hb : b < 256 := h b (by simp)
    have h1 := isEqSign_b64char (a / 4) (by omega)
    have h2 := isEqSign_b64char (a % 4 * 16 + b / 16) (by omega)
    have h3 := isEqSign_b64char (b % 16 * 4) (by omega)
    have v1 := b64value_b64char (a / 4) (by omega)
    have v2 := b64value_b64char (a % 4 * 16 + b / 16) (by omega)
    have v3 := b64value_b64char (b % 16 * 4) (by omega)
    simp only [b64encode, List.filter_cons, h1, h2, h3, Bool.not_false, if_true]
    simp only [List.filter, isEqSign, b64decodeCore, v1, v2, v3]
    norm_num
    constructor
    · omega
    · omega
  | case4 a b c rest ih =>
    have ha : a < 256 := h a (by simp)
    have hb : b < 256 := h b (by simp)
    have hc : c < 256 := h c (by simp)
    have h1 := isEqSign_b64char (a / 4) (by omega)
    have h2 := isEqSign_b64char (a % 4 * 16 + b / 16) (by omega)
    have h3 := isEqSign_b64char (b % 16 * 4 + c / 64) (by omega)
    have h4 := isEqSign_b64char (c % 64) (by omega)
    have v1 := b64value_b64char (a / 4) (by omega)
    have v2 := b64value_b64char (a % 4 * 16 + b / 16) (by omega)
    have v3 := b64value_b64char (b % 16 * 4 + c / 64) (by omega)
    have v4 := b64value_b64char (c % 64) (by omega)
    have ih' := ih (fun x hx => h x (by simp [hx]))
    simp only [b64encode, List.filter_cons, h1, h2, h3, h4, Bool.not_false, if_true]
    simp only [b64decodeCore, v1, v2, v3, v4, ih']
    refine List.cons_eq_cons.mpr ⟨by omega, List.cons_eq_cons.mpr ⟨by omega,
      List.cons_eq_cons.mpr ⟨by omega, rfl⟩⟩⟩

/-- Base64url round trip: decoding the re-padded, stripped encoding of a
byte list recovers the byte list. -/
theorem b64_roundtrip (b : List Nat) (h : ∀ x ∈ b, x < 256) :
    b64decode (b64pad (rstripEq (b64encode b))) = b := by
  unfold b64decode
  rw [filter_b64pad, filter_rstripEq]
  exact b64decodeCore_filter_encode b h

/-- Stripping trailing `=` commutes with appending after a block that ends
in a non-`=` character. -/
theorem rstripEq_append (g r : List Char) (c : Char) (hc : isEqSign c = false) :
    rstripEq (g ++ [c] ++ r) = g ++ [c] ++ rstripEq r := by
  unfold rstripEq
  rw [List.reverse_append, List.reverse_append, List.dropWhile_append]
  by_cases he : (List.dropWhile isEqSign r.reverse).isEmpty = true
  · rw [if_pos he]
    rw [List.isEmpty_iff] at he
    rw [he]
    simp [List.dropWhile_cons, hc]
  · rw [if_neg he]
    simp

/-- Every character of the stripped encoding of a byte list is in the
URL-safe alphabet class. -/
theorem mem_rstripEq_encode (b : List Nat) (h : ∀ x ∈ b, x < 256) :
    ∀ ch ∈ rstripEq (b64encode b), isUrlSafeChar ch = true := by
  induction b using b64encode.induct with
  | case1 => simp [b64encode, rstripEq]
  | case2 a =>
    have ha : a < 256 := h a (by simp)
    have h1 := isEqSign_b64char (a / 4) (by omega)
    have h2 := isEqSign_b64char (a % 4 * 16) (by omega)
    have hrs : rstripEq (b64encode [a]) = [b64char (a / 4), b64char (a % 4 * 16)] := by
      simp [b64encode, rstripEq, List.dropWhile_cons, isEqSign_eqSign, h1, h2]
    rw [hrs]
    intro ch hch
    simp only [List.mem_cons, List.not_mem_nil, or_false] at hch
    rcases hch with rfl | rfl
    · exact urlSafe_b64char _ (by omega)
    · exact urlSafe_b64char _ (by omega)
  | case3 a b =>
    have ha : a < 256 := h a (by simp)
    have hb : b < 256 := h b (by simp)
    have h1 := isEqSign_b64char (a / 4) (by omega)
    have h2 := isEqSign_b64char (a % 4 * 16 + b / 16) (by omega)
    have h3 := isEqSign_b64char (b % 16 * 4) (by omega)
    have hrs : rstripEq (b64encode [a, b]) =
        [b64char (a / 4), b64char (a % 4 * 16 + b / 16), b64char (b % 16 * 4)] := by
      simp [b64encode, rstripEq, List.dropWhile_cons, isEqSign_eqSign, h1, h2, h3]
    rw [hrs]
    intro ch hch
    simp only [List.mem_cons, List.not_mem_nil, or_false] at hch
    rcases hch with rfl | rfl | rfl
    · exact urlSafe_b64char _ (by omega)
    · exact urlSafe_b64char _ (by omega)
    · exact urlSafe_b64char _ (by omega)
  | case4 a b c rest ih =>
    have ha : a < 256 := h a (by simp)
    have hb : b < 256 := h b (by simp)
    have hc : c < 256 := h c (by simp)
    have h4 := isEqSign_b64char (c % 64) (by omega)
    have hgrp : b64encode (a :: b :: c :: rest) =
        [b64char (a / 4), b64char (a % 4 * 16 + b / 16), b64char (b % 16 * 4 + c / 64)]
          ++ [b64char (c % 64)] ++ b64encode rest := by
      simp [b64encode]
    rw [hgrp, rstripEq_append _ _ _ h4]
    intro ch hch
    simp only [List.append_assoc, List.mem_append, List.mem_cons,
      List.not_mem_nil, or_false] at hch
    rcases hch with (rfl | rfl | rfl) | rfl | h'
    · exact urlSafe_b64char _ (by omega)
    · exact urlSafe_b64char _ (by omega)
    · exact urlSafe_b64char _ (by omega)
    · exact urlSafe_b64char _ (by omega)
    · exact ih (fun x hx => h x (by simp [hx])) ch h'

/-! ### Helper lemmas: UTF-8 bytes -/

/-- Code points of Lean characters are below `0x110000`. -/
theorem char_toNat_lt (c : Char) : c.toNat < 1114112 := by
  have h := c.valid
  rcases h with h | h
  · have : c.val.toNat < 55296 := h
    simp [Char.toNat]
    omega
  · obtain ⟨_, h2⟩ := h
    have : c.val.toNat < 1114112 := h2
    simp [Char.toNat]
    omega

/-- UTF-8 encoding of a valid code point yields bytes. -/
theorem utf8EncodeChar_lt (n : Nat) (hn : n < 1114112) :
    ∀ x ∈ utf8EncodeChar n, x < 256 := by
  intro x hx
  unfold utf8EncodeChar at hx
  split at hx
  · simp at hx; omega
  · split at hx
    · simp at hx; rcases hx with rfl | rfl <;> omega
    · split at hx
      · simp at hx; rcases hx with rfl | rfl | rfl <;> omega
      · simp at hx; rcases hx with rfl | rfl | rfl | rfl <;> omega

/-- UTF-8 encoding of a string yields bytes. -/
theorem utf8Bytes_lt (s : String) : ∀ x ∈ utf8Bytes s, x < 256 := by
  intro x hx
  unfold utf8Bytes at hx
  rw [List.mem_flatten] at hx
  obtain ⟨l, hl, hxl⟩ := hx
  rw [List.mem_map] at hl
  obtain ⟨c, _, rfl⟩ := hl
  exact utf8EncodeChar_lt c.toNat (char_toNat_lt c) x hxl

/-! ### Helper lemmas: the render operation and the driver loop -/

/-- When the input-file read succeeds, `generate_png` never raises: whatever
the network, the write and the diagnostic re-read do, the `except` handler
turns it into a returned boolean. -/
theorem generate_png_total (Z : ZlibModel) (env : Env) (fs : Fs)
    (mmd_file png_file content : String)
    (hr : env.readFile mmd_file = .ok content) :
    ∃ b fs1, generate_png Z env fs mmd_file png_file = .ok (b, fs1) := by
  unfold generate_png
  simp only [hr]
  rcases htr : tryRender env fs png_file (mkUrl Z content) with ⟨res, fs1⟩
  cases res with
  | ok b => exact ⟨b, fs1, rfl⟩
  | error e => exact ⟨false, fs1, rfl⟩

/-- When every input file in the list is readable, the driver loop attempts
every entry in list order and completes with a success count bounded by the
total. -/
theorem runBatch_complete (Z : ZlibModel) (env : Env) (files : List String)
    (hreads : ∀ m ∈ files, ∃ c, env.readFile m = .ok c) :
    ∀ fs : Fs, (runBatch Z env fs files).1 = files ∧
      ∃ n fs2, (runBatch Z env fs files).2 = .ok (n, fs2) ∧ n ≤ files.length := by
  induction files with
  | nil => exact fun fs => ⟨rfl, 0, fs, rfl, Nat.le_refl 0⟩
  | cons m rest ih =>
    intro fs
    obtain ⟨c, hc⟩ := hreads m (by simp)
    obtain ⟨b, fs1, hb⟩ := generate_png_total Z env fs m
      (pyReplace m ".mmd" ".png") c hc
    obtain ⟨hatt, n, fs2, hrun, hn⟩ :=
      ih (fun x hx => hreads x (by simp [hx])) fs1
    rcases hrb : runBatch Z env fs1 rest with ⟨att, res⟩
    rw [hrb] at hatt hrun
    simp only at hatt hrun
    subst hatt hrun
    constructor
    · simp [runBatch, hb, hrb]
    · refine ⟨if b then n + 1 else n, fs2, ?_, ?_⟩
      · simp [runBatch, hb, hrb]
      · cases b <;> simp <;> omega

/-! ### Claim theorems -/

/-- C4: for every input text, deflate-decompressing the encoded payload
(after base64url-decoding it, with stripped `=` padding restored) recovers
exactly the original UTF-8 bytes of the input text. -/
theorem claim4_payload_roundtrip (Z : ZlibModel) (content : String) :
    Z.decompress (b64decode (b64pad (encodePayload Z content))) =
      utf8Bytes content := by
  unfold encodePayload
  rw [b64_roundtrip _ (Z.compress_bytes _ (utf8Bytes_lt content))]
  exact Z.decompress_compress _ (utf8Bytes_lt content)

/-- C5: the encoded payload contains only characters from `[A-Za-z0-9\-_]`
and in particular never a `=`. -/
theorem claim5_payload_alphabet (Z : ZlibModel) (content : String) :
    ∀ ch ∈ encodePayload Z content, isUrlSafeChar ch = true ∧ ¬ ch = '=' := by
  intro ch hch
  have h := mem_rstripEq_encode _ (Z.compress_bytes _ (utf8Bytes_lt content)) ch hch
  refine ⟨h, fun heq => ?_⟩
  rw [heq, urlSafe_eqSign_false] at h
  exact Bool.false_ne_true h

/-- C5 witness: the first payload character of input `"abc"` under the
identity compression model is URL-safe and not `=`. -/
theorem claim5_witness : isUrlSafeChar 'Y' = true ∧ ¬ 'Y' = '=' :=
  claim5_payload_alphabet idZlib "abc" 'Y' (by decide)

/-- C6: encoding is deterministic: equal inputs yield byte-identical
payloads and identical request URLs. -/
theorem claim6_deterministic (Z : ZlibModel) (c1 c2 : String) (h : c1 = c2) :
    encodePayload Z c1 = encodePayload Z c2 ∧ mkUrl Z c1 = mkUrl Z c2 := by
  subst h
  exact ⟨rfl, rfl⟩

/-- C6 witness: two invocations on the scenario input agree. -/
theorem claim6_witness :
    encodePayload idZlib "graph TD; A-->B;" = encodePayload idZlib "graph TD; A-->B;" ∧
      mkUrl idZlib "graph TD; A-->B;" = mkUrl idZlib "graph TD; A-->B;" :=
  claim6_deterministic idZlib "graph TD; A-->B;" "graph TD; A-->B;" rfl

/-- C7: the request URL is the fixed prefix followed by the payload, and the
render depends on the network only through its response at that one URL
(no headers, authentication or query parameters exist in the model). -/
theorem claim7_request_url (Z : ZlibModel) (env : Env) (fs : Fs)
    (mmd_file png_file content : String)
    (hr : env.readFile mmd_file = .ok content) :
    mkUrl Z content = "https://mermaid.ink/img/pako:" ++
        String.mk (encodePayload Z content) ∧
      ∀ env2 : Env, env2.readFile = env.readFile →
        env2.writeOk = env.writeOk → env2.decodeText = env.decodeText →
        env2.httpGet (mkUrl Z content) = env.httpGet (mkUrl Z content) →
        generate_png Z env2 fs mmd_file png_file =
          generate_png Z env fs mmd_file png_file := by
  refine ⟨rfl, fun env2 h1 h2 h3 h4 => ?_⟩
  unfold generate_png
  rw [h1]
  simp only [hr]
  unfold tryRender
  rw [h2, h3, h4]

/-- C7 witness: instantiation at the all-success environment. -/
theorem claim7_witness :
    mkUrl idZlib "a.mmd" = "https://mermaid.ink/img/pako:" ++
        String.mk (encodePayload idZlib "a.mmd") ∧
      ∀ env2 : Env, env2.readFile = envAllOk.readFile →
        env2.writeOk = envAllOk.writeOk → env2.decodeText = envAllOk.decodeText →
        env2.httpGet (mkUrl idZlib "a.mmd") = envAllOk.httpGet (mkUrl idZlib "a.mmd") →
        generate_png idZlib env2 fs0 "a.mmd" "a.png" =
          generate_png idZlib envAllOk fs0 "a.mmd" "a.png" :=
  claim7_request_url idZlib envAllOk fs0 "a.mmd" "a.png" "a.mmd" rfl

set_option maxRecDepth 100000 in
/-- C1 counterexample: with every primitive fine except the input-file read,
the render call raises (`.error`) instead of returning `False` — the read
happens before the `try:` block, so, contrary to the claim, a failure during
the input file read is not caught inside the operation. -/
theorem claim1_counterexample :
    generate_png idZlib envReadFail2 fs0 "queue-based-architecture.mmd"
      "queue-based-architecture.png" = .error "FileNotFoundError" := rfl

/-- C1 (amended): once the input-file read has succeeded, no exception
escapes `generate_png`: it returns a boolean; in particular a network
error or a write failure is caught and reported as `False`.  (A failure of
the input file read itself propagates, see the counterexample.) -/
theorem claim1_try_block_caught (Z : ZlibModel) (env : Env) (fs : Fs)
    (mmd_file png_file content : String)
    (hr : env.readFile mmd_file = .ok content) :
    (∃ b fs1, generate_png Z env fs mmd_file png_file = .ok (b, fs1)) ∧
    (∀ e, env.httpGet (mkUrl Z content) = .error e →
      generate_png Z env fs mmd_file png_file = .ok (false, fs)) ∧
    (∀ data, env.httpGet (mkUrl Z content) = .ok data →
      env.writeOk png_file = false →
      generate_png Z env fs mmd_file png_file = .ok (false, fs)) := by
  refine ⟨generate_png_total Z env fs mmd_file png_file content hr, ?_, ?_⟩
  · intro e he
    unfold generate_png
    simp only [hr]
    unfold tryRender
    rw [he]
  · intro data hd hw
    unfold generate_png
    simp only [hr]
    unfold tryRender
    rw [hd, hw]
    simp

/-- C1 witness: with the network down, the render returns `False` rather
than raising. -/
theorem claim1_witness :
    (∃ b fs1, generate_png idZlib envNetDown fs0 "a.mmd" "a.png" = .ok (b, fs1)) ∧
    (∀ e, envNetDown.httpGet (mkUrl idZlib "a.mmd") = .error e →
      generate_png idZlib envNetDown fs0 "a.mmd" "a.png" = .ok (false, fs0)) ∧
    (∀ data, envNetDown.httpGet (mkUrl idZlib "a.mmd") = .ok data →
      envNetDown.writeOk "a.png" = false →
      generate_png idZlib envNetDown fs0 "a.mmd" "a.png" = .ok (false, fs0)) :=
  claim1_try_block_caught idZlib envNetDown fs0 "a.mmd" "a.png" "a.mmd" rfl

set_option maxRecDepth 100000 in
/-- C2 counterexample: when reading the second input file raises, the batch
crashes: only the first two entries are ever attempted (the third and
fourth are not), and no summary count is produced — contrary to the claim
that a failure of any one entry's render does not halt processing. -/
theorem claim2_counterexample :
    mainLoop idZlib envReadFail2 fs0 =
      (["leader-election-sequence.mmd", "queue-based-architecture.mmd"],
        .error "FileNotFoundError") := rfl

/-- C2 (amended): failures that the render catches (network, write,
heuristic, diagnostic) do not halt the batch: when no input-file read
raises, every entry is attempted in list order and the loop completes with
an accumulated success count at most the total.  An input-file read
failure, by contrast, aborts the batch (see the counterexample). -/
theorem claim2_no_halt_when_reads_ok (Z : ZlibModel) (env : Env) (fs : Fs)
    (hreads : ∀ m ∈ mmd_files, ∃ c, env.readFile m = .ok c) :
    (mainLoop Z env fs).1 = mmd_files ∧
      ∃ n fs2, (mainLoop Z env fs).2 = .ok (n, fs2) ∧ n ≤ mmd_files.length :=
  runBatch_complete Z env mmd_files hreads fs

set_option maxRecDepth 100000 in
/-- C2 witness: with only the second entry's render failing (network
error), all four entries are attempted and the summary is `3/4`. -/
theorem claim2_witness :
    ((mainLoop idZlib envNet2 fs0).1 = mmd_files ∧
      ∃ n fs2, (mainLoop idZlib envNet2 fs0).2 = .ok (n, fs2) ∧
        n ≤ mmd_files.length) ∧
    ∃ fs2, (mainLoop idZlib envNet2 fs0).2 = .ok (3, fs2) := by
  refine ⟨claim2_no_halt_when_reads_ok idZlib envNet2 fs0
    (fun m _ => ⟨m, rfl⟩), ⟨_, rfl⟩⟩

/-- C3: when the response is received and written, the render returns
`True` exactly when the body has at least 500 bytes, `False` when it is
smaller. -/
theorem claim3_size_heuristic (Z : ZlibModel) (env : Env) (fs : Fs)
    (mmd_file png_file content : String) (data : List Nat)
    (hr : env.readFile mmd_file = .ok content)
    (hg : env.httpGet (mkUrl Z content) = .ok data)
    (hw : env.writeOk png_file = true) :
    ∃ fs1, generate_png Z env fs mmd_file png_file =
      .ok (decide (500 ≤ data.length), fs1) := by
  refine ⟨updateFs fs png_file data, ?_⟩
  unfold generate_png
  simp only [hr]
  unfold tryRender
  rw [hg, hw]
  by_cases hlen : data.length < 500
  · have hdec : decide (500 ≤ data.length) = false :=
      decide_eq_false (by omega)
    rw [hdec]
    rcases hdt : env.decodeText data with e | txt <;>
      simp [hlen, updateFs, hdt]
  · have hdec : decide (500 ≤ data.length) = true :=
      decide_eq_true (by omega)
    rw [hdec]
    simp [hlen, updateFs]

set_option maxRecDepth 100000 in
/-- C3 witness: a body of exactly 499 bytes is classified as failure and a
body of exactly 500 bytes as success. -/
theorem claim3_witness :
    (∃ fs1, generate_png idZlib env499 fs0 "a.mmd" "a.png" = .ok (false, fs1)) ∧
    (∃ fs1, generate_png idZlib env500 fs0 "a.mmd" "a.png" = .ok (true, fs1)) :=
  ⟨claim3_size_heuristic idZlib env499 fs0 "a.mmd" "a.png" "a.mmd"
      (List.replicate 499 0) rfl rfl rfl,
   claim3_size_heuristic idZlib env500 fs0 "a.mmd" "a.png" "a.mmd"
      (List.replicate 500 0) rfl rfl rfl⟩

/-- C8: the four hard-coded inputs, their derived `.png` outputs
(`mmd_file.replace('.mmd', '.png')`), and the fact that the driver attempts
them in exactly that list order. -/
theorem claim8_driver_files (Z : ZlibModel) (env : Env) (fs : Fs)
    (hreads : ∀ m ∈ mmd_files, ∃ c, env.readFile m = .ok c) :
    mmd_files = ["leader-election-sequence.mmd", "queue-based-architecture.mmd",
      "decision-tree.mmd", "idempotency-pattern.mmd"] ∧
    mmd_files.map (fun m => pyReplace m ".mmd" ".png") =
      ["leader-election-sequence.png", "queue-based-architecture.png",
       "decision-tree.png", "idempotency-pattern.png"] ∧
    (mainLoop Z env fs).1 = mmd_files :=
  ⟨rfl, by decide, (runBatch_complete Z env mmd_files hreads fs).1⟩

/-- C8 witness: instantiation at the all-success environment. -/
theorem claim8_witness :
    mmd_files = ["leader-election-sequence.mmd", "queue-based-architecture.mmd",
      "decision-tree.mmd", "idempotency-pattern.mmd"] ∧
    mmd_files.map (fun m => pyReplace m ".mmd" ".png") =
      ["leader-election-sequence.png", "queue-based-architecture.png",
       "decision-tree.png", "idempotency-pattern.png"] ∧
    (mainLoop idZlib envAllOk fs0).1 = mmd_files :=
  claim8_driver_files idZlib envAllOk fs0 (fun m _ => ⟨m, rfl⟩)

/-- C9: on the soft-failure path (body under 500 bytes), the output file has
already been overwritten with exactly the full response body when `False`
is returned: the heuristic failure does not undo or skip the write. -/
theorem claim9_soft_failure_writes (Z : ZlibModel) (env : Env) (fs : Fs)
    (mmd_file png_file content : String) (data : List Nat)
    (hr : env.readFile mmd_file = .ok content)
    (hg : env.httpGet (mkUrl Z content) = .ok data)
    (hw : env.writeOk png_file = true)
    (hlen : data.length < 500) :
    generate_png Z env fs mmd_file png_file =
        .ok (false, updateFs fs png_file data) ∧
      updateFs fs png_file data png_file = some data := by
  constructor
  · unfold generate_png
    simp only [hr]
    unfold tryRender
    rw [hg, hw]
    rcases hdt : env.decodeText data with e | txt <;>
      simp [hlen, updateFs, hdt]
  · simp [updateFs]

set_option maxRecDepth 100000 in
/-- C9 witness: a 499-byte body is written verbatim before `False` is
returned. -/
theorem claim9_witness :
    generate_png idZlib env499 fs0 "a.mmd" "a.png" =
        .ok (false, updateFs fs0 "a.png" (List.replicate 499 0)) ∧
      updateFs fs0 "a.png" (List.replicate 499 0) "a.png" =
        some (List.replicate 499 0) :=
  claim9_soft_failure_writes idZlib env499 fs0 "a.mmd" "a.png" "a.mmd"
    (List.replicate 499 0) rfl rfl rfl (by decide)

/-- C10: if the diagnostic text re-read of the small response body raises,
the surrounding handler still catches it and `generate_png` returns
`False`; no exception escapes. -/
theorem claim10_diagnostic_caught (Z : ZlibModel) (env : Env) (fs : Fs)
    (mmd_file png_file content : String) (data : List Nat) (e : String)
    (hr : env.readFile mmd_file = .ok content)
    (hg : env.httpGet (mkUrl Z content) = .ok data)
    (hw : env.writeOk png_file = true)
    (hlen : data.length < 500)
    (hd : env.decodeText data = .error e) :
    generate_png Z env fs mmd_file png_file =
      .ok (false, updateFs fs png_file data) := by
  unfold generate_png
  simp only [hr]
  unfold tryRender
  rw [hg, hw]
  simp [hlen, updateFs, hd]

set_option maxRecDepth 100000 in
/-- C10 witness: a 12-byte undecodable body makes the diagnostic raise and
the render still returns `False`. -/
theorem claim10_witness :
    generate_png idZlib envSmallBad fs0 "a.mmd" "a.png" =
      .ok (false, updateFs fs0 "a.png" (List.replicate 12 137)) :=
  claim10_diagnostic_caught idZlib envSmallBad fs0 "a.mmd" "a.png" "a.mmd"
    (List.replicate 12 137) "UnicodeDecodeError" rfl rfl rfl (by decide) rfl

/-- C4 witness: round trip at the identity compression model on the
scenario input. -/
theorem claim4_witness :
    idZlib.decompress (b64decode (b64pad (encodePayload idZlib "graph TD; A-->B;"))) =
      utf8Bytes "graph TD; A-->B;" :=
  claim4_payload_roundtrip idZlib "graph TD; A-->B;"
